import Mathlib

set_option maxHeartbeats 1000000

/-!
Shallow embedding of the audio-validation core of
`src/sxs-audio-file-validation.py` (class `AudioFileValidator`).

The validator stages an uploaded byte stream to a temporary file, attempts a
primary decode (librosa), cross-checks with a secondary probe (soundfile),
falls back to a raw WAV parse (wave) when the primary decode raises, applies
the duration policy, and returns a result dictionary with seven fields.

The interactions with the outside world (staging I/O, the three decoder
libraries) are modelled by an `Env` record giving the outcome each library
call would produce for the staged bytes; `validate_audio_file` is then a pure
function of that environment and the uploaded file name, translated
branch-for-branch from the Python source (lines 344-425).  Durations are
rationals (`samples / rate`); the Python `ZeroDivisionError` raised when a
reported sample rate is zero is modelled explicitly, since in the source it
is caught by the surrounding handlers.
-/

/-- Outcome of staging the uploaded bytes to a temp file (source lines
357-366): an unexpected exception during seek/write (caught at line 422), a
staged file that exists but is empty (line 364), or a successful stage. -/
inductive StageOutcome where
  | raised (msg : String)
  | emptyFile
  | staged
deriving DecidableEq, Repr

/-- Outcome of `librosa.load` on the staged file (source line 369): an
exception with message `msg`, or a decoded waveform with `numSamples`
samples at `sampleRate` Hz. -/
inductive DecodeOutcome where
  | failed (msg : String)
  | decoded (numSamples : Nat) (sampleRate : Nat)
deriving DecidableEq, Repr

/-- Outcome of the secondary `soundfile` probe (source lines 388-393):
opening raises; opening succeeds (reporting `channels`) but the test read
raises; or both succeed and the test read returns `framesRead` frames. -/
inductive ProbeOutcome where
  | openFailed (msg : String)
  | readFailed (channels : Nat) (msg : String)
  | probed (channels : Nat) (framesRead : Nat)
deriving DecidableEq, Repr

/-- Outcome of the fallback `wave.open` parse (source lines 403-406). -/
inductive WavOutcome where
  | failed (msg : String)
  | parsed (frames : Nat) (rate : Nat) (channels : Nat)
deriving DecidableEq, Repr

/-- The outcomes the staged bytes would produce in each library call; a
function of the uploaded content alone. -/
structure Env where
  stage : StageOutcome
  primary : DecodeOutcome
  probe : ProbeOutcome
  fallback : WavOutcome
deriving DecidableEq, Repr

/-- The result dictionary built at source lines 346-354. -/
structure ValidationResult where
  is_valid : Bool
  duration : ℚ
  sample_rate : Nat
  channels : Nat
  format : String
  errors : List String
  warnings : List String
deriving DecidableEq, Repr

/-- Which decode stages a validation call actually reached. -/
structure Trace where
  primaryAttempted : Bool
  probeAttempted : Bool
  fallbackAttempted : Bool
deriving DecidableEq, Repr

/-- The freshly initialised result (source lines 346-354). -/
def initResult : ValidationResult :=
  { is_valid := false, duration := 0, sample_rate := 0, channels := 0
    format := "", errors := [], warnings := [] }

/-- Characters of the basename: everything after the last `/`
(posix `os.path` separator handling inside `splitext`). -/
def basenameChars (l : List Char) : List Char :=
  l.foldl (fun acc c => if c = '/' then [] else acc ++ [c]) []

/-- Split a basename at its last dot: first component is everything before
the last `.`, second is the last `.` and what follows (empty if no dot). -/
def splitLastDot (l : List Char) : List Char × List Char :=
  l.foldl
    (fun p c =>
      if c = '.' then (p.1 ++ p.2, ['.'])
      else if p.2.isEmpty then (p.1 ++ [c], [])
      else (p.1, p.2 ++ [c]))
    ([], [])

/-- `os.path.splitext(name)[1]`: the extension starting at the last dot,
except that a dot with only dots before it in the basename yields no
extension (CPython `genericpath._splitext`). -/
def pyExt (name : String) : String :=
  let b := basenameChars name.data
  let p := splitLastDot b
  if p.1.any (fun c => c ≠ '.') then String.mk p.2 else ""

/-- `os.path.splitext(name)[1].lower()` as computed at source line 374. -/
def pyExtLower (name : String) : String :=
  String.mk ((pyExt name).data.map Char.toLower)

/-- Render `q` rounded to one decimal place (Python `f"{q:.1f}"`, with
round-half-to-even ties), used in the advisory duration warning. -/
def fmtTenth (q : ℚ) : String :=
  let x : ℚ := 10 * q
  let f : ℤ := ⌊x⌋
  let r : ℚ := x - (f : ℚ)
  let n : ℤ :=
    if r < 1 / 2 then f
    else if 1 / 2 < r then f + 1
    else if f % 2 = 0 then f else f + 1
  toString (n / 10) ++ "." ++ toString (n % 10)

/-- Error text at source line 365. -/
def emptyMsg : String := "Audio file is empty or corrupted"

/-- Error text at source line 377. -/
def zeroDataMsg : String := "Audio file contains no readable audio data"

/-- Error text at source line 381. -/
def shortMsg : String := "Audio duration is less than 1 second"

/-- Warning text at source line 385 (`MIN_AUDIO_DURATION = 60.0`). -/
def advisoryMsg (d : ℚ) : String :=
  "Audio duration (" ++ fmtTenth d ++ "s) is below recommended minimum (60.0s)"

/-- Warning text at source line 395. -/
def probeWarnMsg (m : String) : String :=
  "Secondary format validation warning: " ++ m

/-- Error text at source line 392. -/
def framesMsg : String := "Cannot read audio frames from file"

/-- Error text at source line 400. -/
def loadFailMsg (m : String) : String := "Audio loading failed: " ++ m

/-- Error text at source line 420. -/
def fallbackFailMsg (m : String) : String :=
  "Fallback validation also failed: " ++ m

/-- Warning text at source line 417. -/
def fallbackOkMsg : String := "Validated using fallback WAV reader"

/-- Error text at source line 423. -/
def unexpectedMsg (m : String) : String := "Unexpected validation error: " ++ m

/-- `str(ZeroDivisionError)` as Python renders it. -/
def divZeroMsg : String := "division by zero"

/-- The fallback WAV branch (source lines 402-420), entered from the
`except` handler with `r` already holding the primary-failure error entry.
A zero reported frame rate raises `ZeroDivisionError` at line 408 before any
result field is written, caught at line 419. -/
def runFallback (r : ValidationResult) (w : WavOutcome) : ValidationResult :=
  match w with
  | .failed m => { r with errors := r.errors ++ [fallbackFailMsg m] }
  | .parsed frames rate channels =>
    if rate = 0 then
      { r with errors := r.errors ++ [fallbackFailMsg divZeroMsg] }
    else
      let d : ℚ := (frames : ℚ) / (rate : ℚ)
      let r2 := { r with duration := d, sample_rate := rate,
                         channels := channels, format := ".wav" }
      if 1 ≤ d then
        { r2 with is_valid := true, warnings := r2.warnings ++ [fallbackOkMsg] }
      else r2

/-- The body of the inner `try` (source lines 368-420), reached after a
successful stage.  A zero reported sample rate raises `ZeroDivisionError` at
line 370 before any result field is written, caught at line 399 like any
other `librosa` failure. -/
def runPrimary (env : Env) (name : String) : ValidationResult × Trace :=
  match env.primary with
  | .failed m =>
    (runFallback { initResult with errors := [loadFailMsg m] } env.fallback,
     ⟨true, false, true⟩)
  | .decoded n sr =>
    if sr = 0 then
      (runFallback { initResult with errors := [loadFailMsg divZeroMsg] }
         env.fallback,
       ⟨true, false, true⟩)
    else
      let d : ℚ := (n : ℚ) / (sr : ℚ)
      let r1 := { initResult with duration := d, sample_rate := sr,
                                  format := pyExtLower name }
      if n = 0 then
        ({ r1 with errors := r1.errors ++ [zeroDataMsg] }, ⟨true, false, false⟩)
      else if d < 1 then
        ({ r1 with errors := r1.errors ++ [shortMsg] }, ⟨true, false, false⟩)
      else
        let r2 :=
          if d < 60 then { r1 with warnings := r1.warnings ++ [advisoryMsg d] }
          else r1
        match env.probe with
        | .openFailed m =>
          ({ r2 with warnings := r2.warnings ++ [probeWarnMsg m],
                     is_valid := true },
           ⟨true, true, false⟩)
        | .readFailed ch m =>
          ({ r2 with channels := ch,
                     warnings := r2.warnings ++ [probeWarnMsg m],
                     is_valid := true },
           ⟨true, true, false⟩)
        | .probed ch frames =>
          let r3 := { r2 with channels := ch }
          if frames = 0 then
            ({ r3 with errors := r3.errors ++ [framesMsg] }, ⟨true, true, false⟩)
          else
            ({ r3 with is_valid := true }, ⟨true, true, false⟩)

/-- `AudioFileValidator.validate_audio_file` (source lines 344-425),
additionally reporting which decode stages were reached. -/
def validate_audio_fileT (env : Env) (name : String) :
    ValidationResult × Trace :=
  match env.stage with
  | .raised m =>
    ({ initResult with errors := [unexpectedMsg m] }, ⟨false, false, false⟩)
  | .emptyFile =>
    ({ initResult with errors := [emptyMsg] }, ⟨false, false, false⟩)
  | .staged => runPrimary env name

/-- The `ValidationResult` returned by `validate_audio_file`. -/
def validate_audio_file (env : Env) (name : String) : ValidationResult :=
  (validate_audio_fileT env name).1

/-- Instance state of an `AudioFileValidator`: the `self.temp_files` list of
staged temp-file paths (paths modelled as numeric ids). -/
structure VState where
  temp_files : List Nat
deriving DecidableEq, Repr

/-- `validate_audio_file` with its effects on the validator instance and on
storage: `fs` is the list of temp files currently existing on storage and
`fresh` the path the stager would allocate.  When staging raises (the seek
at line 357) no file is created; otherwise the temp file is written and its
path appended to `self.temp_files` (line 362).  No branch of the source
deletes the file before returning. -/
def validate_audio_fileS (env : Env) (name : String) (fresh : Nat)
    (s : VState) (fs : List Nat) : ValidationResult × VState × List Nat :=
  match env.stage with
  | .raised _ => (validate_audio_file env name, s, fs)
  | _ =>
    (validate_audio_file env name, ⟨s.temp_files ++ [fresh]⟩, fresh :: fs)

/-- `AudioFileValidator.cleanup` (source lines 334-342): unlink every
recorded temp file and reset the list. -/
def cleanup (s : VState) (fs : List Nat) : VState × List Nat :=
  (⟨[]⟩, fs.filter (fun f => ! s.temp_files.contains f))

/-- Does the primary decode branch raise (source line 399): either the
library call itself failed, or the reported sample rate is zero so the
duration division raises. -/
def primaryRaises : DecodeOutcome → Bool
  | .failed _ => true
  | .decoded _ sr => sr == 0

/-- Does the probe open and then read zero frames (source line 391)? -/
def probeZeroRead : ProbeOutcome → Bool
  | .probed _ 0 => true
  | _ => false

/-- A file the primary decoder rejects but whose raw WAV header parses to a
120 s recording (120 frames at 1 Hz). -/
def envC9 : Env :=
  ⟨.staged, .failed "primary decoder rejected the file", .openFailed "unused",
   .parsed 120 1 2⟩

/-- A file whose primary decode returns an empty waveform while its raw WAV
header would parse to a 60 s recording. -/
def envC2 : Env :=
  ⟨.staged, .decoded 0 44100, .probed 2 1024, .parsed 480000 8000 2⟩

/-- A file that stages and decodes to 120 s of audio at 1 Hz. -/
def envC4 : Env :=
  ⟨.staged, .decoded 120 1, .probed 2 1024, .failed "unused"⟩

/-- A file the primary decoder rejects but whose fallback WAV parse yields a
30 s recording (30 frames at 1 Hz). -/
def envC1 : Env :=
  ⟨.staged, .failed "codec error", .probed 1 1024, .parsed 30 1 2⟩

/-- A file named with an `.mp3` extension that only the fallback WAV reader
can decode (120 frames at 1 Hz). -/
def envC8 : Env :=
  ⟨.staged, .failed "not decodable by the codec library", .openFailed "unused",
   .parsed 120 1 2⟩

/-- C9: a validation in which the primary decode fails but the fallback WAV
decode succeeds with duration 120 s ≥ 1 s returns `is_valid = true` while
`errors` is non-empty: the primary `DecodeFailure` entry is retained
alongside the fallback-success warning, so non-empty `errors` does not
imply `is_valid = false`. -/
theorem c9_valid_with_nonempty_errors :
    (validate_audio_file envC9 "a.wav").is_valid = true ∧
    (validate_audio_file envC9 "a.wav").errors =
      [loadFailMsg "primary decoder rejected the file"] ∧
    (validate_audio_file envC9 "a.wav").errors ≠ [] ∧
    fallbackOkMsg ∈ (validate_audio_file envC9 "a.wav").warnings ∧
    (validate_audio_file envC9 "a.wav").duration = 120 := by
  norm_num [validate_audio_file, validate_audio_fileT, runPrimary, runFallback,
    envC9, initResult, loadFailMsg, fallbackOkMsg]

/-- C10: the `ValidationResult` returned by a validation call depends only
on the staged content (its library outcomes `env`) and the uploaded file
name, not on the validator instance state, the storage state, or the
allocated temp path: two fresh calls on byte-identical content yield
identical results in every field. -/
theorem c10_no_hidden_cross_call_state (env : Env) (name : String)
    (fresh1 fresh2 : Nat) (s1 s2 : VState) (fs1 fs2 : List Nat) :
    (validate_audio_fileS env name fresh1 s1 fs1).1 =
      (validate_audio_fileS env name fresh2 s2 fs2).1 := by
  obtain ⟨st, pr, pb, fb⟩ := env
  cases st <;> rfl

/-- C7: when the staged file is empty (zero bytes), the result is invalid
with exactly the empty/corrupt-file error, and neither the primary nor the
fallback decoder is attempted. -/
theorem c7_zero_byte_short_circuit (env : Env) (name : String)
    (h : env.stage = .emptyFile) :
    (validate_audio_fileT env name).1.is_valid = false ∧
    (validate_audio_fileT env name).1.errors = [emptyMsg] ∧
    (validate_audio_fileT env name).2.primaryAttempted = false ∧
    (validate_audio_fileT env name).2.fallbackAttempted = false := by
  obtain ⟨st, pr, pb, fb⟩ := env
  subst h
  simp [validate_audio_fileT, initResult]

/-- C7 witness: the zero-byte behaviour evaluated at a concrete input. -/
theorem c7_zero_byte_witness :
    (validate_audio_fileT ⟨.emptyFile, .decoded 100 1, .probed 1 1,
        .parsed 1 1 1⟩ "a.wav").1.is_valid = false ∧
    (validate_audio_fileT ⟨.emptyFile, .decoded 100 1, .probed 1 1,
        .parsed 1 1 1⟩ "a.wav").1.errors = [emptyMsg] ∧
    (validate_audio_fileT ⟨.emptyFile, .decoded 100 1, .probed 1 1,
        .parsed 1 1 1⟩ "a.wav").2.primaryAttempted = false ∧
    (validate_audio_fileT ⟨.emptyFile, .decoded 100 1, .probed 1 1,
        .parsed 1 1 1⟩ "a.wav").2.fallbackAttempted = false :=
  c7_zero_byte_short_circuit _ "a.wav" rfl

/-- C2 counterexample: on a file whose primary decode yields zero samples
(and whose raw WAV header would parse to a valid 60 s recording), the code
returns an immediate invalid result with the no-readable-audio-data error
and never attempts the fallback decoder — contradicting the claim that zero
samples triggers the fallback path. -/
theorem c2_counterexample :
    (validate_audio_fileT envC2 "a.wav").2.fallbackAttempted = false ∧
    (validate_audio_fileT envC2 "a.wav").1.is_valid = false ∧
    (validate_audio_fileT envC2 "a.wav").1.errors = [zeroDataMsg] := by
  norm_num [validate_audio_fileT, runPrimary, envC2, initResult, zeroDataMsg]

/-- C2 amended: a primary decode that yields zero samples causes an
immediate invalid return carrying the no-readable-audio-data error; neither
the secondary probe nor the fallback decoder is attempted (the fallback
runs only when the primary decode raises). -/
theorem c2_zero_samples_no_fallback (env : Env) (name : String) (n sr : Nat)
    (hs : env.stage = .staged) (hp : env.primary = .decoded n sr)
    (hsr : sr ≠ 0) (hn : n = 0) :
    (validate_audio_fileT env name).1.is_valid = false ∧
    (validate_audio_fileT env name).1.errors = [zeroDataMsg] ∧
    (validate_audio_fileT env name).2.fallbackAttempted = false ∧
    (validate_audio_fileT env name).2.probeAttempted = false := by
  obtain ⟨st, pr, pb, fb⟩ := env
  subst hs
  subst hn
  simp only at hp
  subst hp
  simp [validate_audio_fileT, runPrimary, if_neg hsr, initResult]

/-- C3: every failure class is caught where it occurs and converted into an
entry of `errors` or `warnings` of the returned result: unexpected staging
faults, empty staged files, primary decode failures (including a zero
reported sample rate), fallback decode failures, zero decoded samples,
hard-floor duration violations, probe open/read failures (warnings), and
probe zero-frame reads.  The call is a total function: it always returns a
complete `ValidationResult` with all seven fields. -/
theorem c3_every_failure_becomes_entry (env : Env) (name : String) :
    (∀ m, env.stage = .raised m →
      unexpectedMsg m ∈ (validate_audio_file env name).errors) ∧
    (env.stage = .emptyFile →
      emptyMsg ∈ (validate_audio_file env name).errors) ∧
    (∀ m, env.stage = .staged → env.primary = .failed m →
      loadFailMsg m ∈ (validate_audio_file env name).errors) ∧
    (∀ m2, env.stage = .staged → primaryRaises env.primary = true →
      env.fallback = .failed m2 →
      fallbackFailMsg m2 ∈ (validate_audio_file env name).errors) ∧
    (∀ n sr, env.stage = .staged → env.primary = .decoded n sr → sr ≠ 0 →
      n = 0 → zeroDataMsg ∈ (validate_audio_file env name).errors) ∧
    (∀ n sr, env.stage = .staged → env.primary = .decoded n sr → sr ≠ 0 →
      n ≠ 0 → (n : ℚ) / (sr : ℚ) < 1 →
      shortMsg ∈ (validate_audio_file env name).errors) ∧
    (∀ n sr m, env.stage = .staged → env.primary = .decoded n sr → sr ≠ 0 →
      n ≠ 0 → 1 ≤ (n : ℚ) / (sr : ℚ) → env.probe = .openFailed m →
      probeWarnMsg m ∈ (validate_audio_file env name).warnings) ∧
    (∀ n sr ch m, env.stage = .staged → env.primary = .decoded n sr →
      sr ≠ 0 → n ≠ 0 → 1 ≤ (n : ℚ) / (sr : ℚ) →
      env.probe = .readFailed ch m →
      probeWarnMsg m ∈ (validate_audio_file env name).warnings) ∧
    (∀ n sr ch, env.stage = .staged → env.primary = .decoded n sr → sr ≠ 0 →
      n ≠ 0 → 1 ≤ (n : ℚ) / (sr : ℚ) → env.probe = .probed ch 0 →
      framesMsg ∈ (validate_audio_file env name).errors) := by
  obtain ⟨st, pr, pb, fb⟩ := env
  refine ⟨?_, ?_, ?_, ?_, ?_, ?_, ?_, ?_, ?_⟩
  · rintro m rfl
    simp [validate_audio_file, validate_audio_fileT, initResult]
  · rintro rfl
    simp [validate_audio_file, validate_audio_fileT, initResult]
  · rintro m rfl rfl
    cases fb with
    | failed m2 =>
      simp [validate_audio_file, validate_audio_fileT, runPrimary,
        runFallback, initResult]
    | parsed f r c =>
      simp only [validate_audio_file, validate_audio_fileT, runPrimary,
        runFallback]
      split_ifs <;> simp [initResult]
  · rintro m2 rfl hpr rfl
    cases pr with
    | failed m =>
      simp [validate_audio_file, validate_audio_fileT, runPrimary,
        runFallback, initResult]
    | decoded n sr =>
      simp only [primaryRaises, beq_iff_eq] at hpr
      subst hpr
      simp [validate_audio_file, validate_audio_fileT, runPrimary,
        runFallback, initResult]
  · rintro n sr rfl hp hsr rfl
    simp only at hp
    subst hp
    simp [validate_audio_file, validate_audio_fileT, runPrimary,
      if_neg hsr, initResult]
  · rintro n sr rfl hp hsr hn hd
    simp only at hp
    subst hp
    simp only [validate_audio_file, validate_audio_fileT, runPrimary,
      if_neg hsr, if_neg hn, if_pos hd]
    simp [initResult]
  · rintro n sr m rfl hp hsr hn h1 rfl
    simp only at hp
    subst hp
    simp only [validate_audio_file, validate_audio_fileT, runPrimary,
      if_neg hsr, if_neg hn, if_neg (not_lt.mpr h1)]
    simp [List.mem_append]
  · rintro n sr ch m rfl hp hsr hn h1 rfl
    simp only at hp
    subst hp
    simp only [validate_audio_file, validate_audio_fileT, runPrimary,
      if_neg hsr, if_neg hn, if_neg (not_lt.mpr h1)]
    simp [List.mem_append]
  · rintro n sr ch rfl hp hsr hn h1 rfl
    simp only at hp
    subst hp
    simp only [validate_audio_file, validate_audio_fileT, runPrimary,
      if_neg hsr, if_neg hn, if_neg (not_lt.mpr h1)]
    simp [List.mem_append, initResult]

/-- C3 witness: the conversion property evaluated at a concrete input on
which staging raises an unexpected fault. -/
theorem c3_conversion_witness :
    unexpectedMsg "disk full" ∈
      (validate_audio_file ⟨.raised "disk full", .decoded 100 1, .probed 1 1,
          .parsed 1 1 1⟩ "a.wav").errors :=
  (c3_every_failure_becomes_entry _ "a.wav").1 "disk full" rfl

/-- C4 counterexample: a validation call that stages temp file `5` and
returns a result leaves file `5` present on storage (and recorded in the
instance's `temp_files` list) after the call returns — the staged file is
not released before the `ValidationResult` is returned. -/
theorem c4_counterexample :
    (validate_audio_fileS envC4 "a.wav" 5 ⟨[]⟩ []).2.2 = [5] ∧
    (validate_audio_fileS envC4 "a.wav" 5 ⟨[]⟩ []).2.1.temp_files = [5] := by
  constructor <;> rfl

/-- C4 amended: the staged temp file is not deleted before the call
returns; it is appended to the instance's `temp_files` list and still
exists on storage when the result is handed back.  It is released by the
instance-level `cleanup` (run at context-manager exit), after which it is
gone from storage and the list is reset. -/
theorem c4_released_at_cleanup (env : Env) (name : String) (fresh : Nat)
    (s : VState) (fs : List Nat) (hs : env.stage = .staged) :
    fresh ∈ (validate_audio_fileS env name fresh s fs).2.2 ∧
    fresh ∉ (cleanup (validate_audio_fileS env name fresh s fs).2.1
      (validate_audio_fileS env name fresh s fs).2.2).2 ∧
    (cleanup (validate_audio_fileS env name fresh s fs).2.1
      (validate_audio_fileS env name fresh s fs).2.2).1.temp_files = [] := by
  obtain ⟨st, pr, pb, fb⟩ := env
  subst hs
  refine ⟨by simp [validate_audio_fileS], ?_, by simp [cleanup]⟩
  simp [validate_audio_fileS, cleanup, List.mem_filter]

/-- C4 witness: the amended lifecycle evaluated at a concrete input. -/
theorem c4_released_at_cleanup_witness :
    5 ∈ (validate_audio_fileS envC4 "a.wav" 5 ⟨[]⟩ []).2.2 ∧
    5 ∉ (cleanup (validate_audio_fileS envC4 "a.wav" 5 ⟨[]⟩ []).2.1
      (validate_audio_fileS envC4 "a.wav" 5 ⟨[]⟩ []).2.2).2 ∧
    (cleanup (validate_audio_fileS envC4 "a.wav" 5 ⟨[]⟩ []).2.1
      (validate_audio_fileS envC4 "a.wav" 5 ⟨[]⟩ []).2.2).1.temp_files = [] :=
  c4_released_at_cleanup envC4 "a.wav" 5 ⟨[]⟩ [] rfl

/-- C5: `is_valid = true` only if some decode path succeeded and the
resulting duration is at least 1.0 s: a valid result always carries a
duration ≥ 1, and either the primary decode produced a nonzero waveform at
a nonzero rate or the fallback WAV parse produced a header with a nonzero
rate. -/
theorem c5_valid_requires_decode_and_floor (env : Env) (name : String)
    (h : (validate_audio_file env name).is_valid = true) :
    1 ≤ (validate_audio_file env name).duration ∧
    ((∃ n sr, env.primary = .decoded n sr ∧ sr ≠ 0 ∧ n ≠ 0) ∨
      (∃ f r c, env.fallback = .parsed f r c ∧ r ≠ 0)) := by
  obtain ⟨st, pr, pb, fb⟩ := env
  cases st with
  | raised m =>
    simp [validate_audio_file, validate_audio_fileT, initResult] at h
  | emptyFile =>
    simp [validate_audio_file, validate_audio_fileT, initResult] at h
  | staged =>
    cases pr with
    | failed m =>
      cases fb with
      | failed m2 =>
        simp [validate_audio_file, validate_audio_fileT, runPrimary,
          runFallback, initResult] at h
      | parsed f r c =>
        simp only [validate_audio_file, validate_audio_fileT, runPrimary,
          runFallback] at h ⊢
        split_ifs at h ⊢ with h0 h1
        · simp [initResult] at h
        · exact ⟨h1, Or.inr ⟨f, r, c, rfl, h0⟩⟩
        · simp [initResult] at h
    | decoded n sr =>
      by_cases hsr : sr = 0
      · subst hsr
        cases fb with
        | failed m2 =>
          simp [validate_audio_file, validate_audio_fileT, runPrimary,
            runFallback, initResult] at h
        | parsed f r c =>
          rw [show validate_audio_file
                ⟨.staged, .decoded n 0, pb, .parsed f r c⟩ name =
              runFallback { initResult with errors := [loadFailMsg divZeroMsg] }
                (.parsed f r c) from rfl] at h ⊢
          simp only [runFallback] at h ⊢
          split_ifs at h ⊢ with h0 h1
          · simp [initResult] at h
          · exact ⟨h1, Or.inr ⟨f, r, c, rfl, h0⟩⟩
          · simp [initResult] at h
      · by_cases hn : n = 0
        · subst hn
          simp [validate_audio_file, validate_audio_fileT, runPrimary,
            if_neg hsr, initResult] at h
        · by_cases hd : (n : ℚ) / (sr : ℚ) < 1
          · simp [validate_audio_file, validate_audio_fileT, runPrimary,
              if_neg hsr, if_neg hn, if_pos hd, initResult] at h
          · cases pb with
            | openFailed m =>
              refine ⟨?_, Or.inl ⟨n, sr, rfl, hsr, hn⟩⟩
              simp only [validate_audio_file, validate_audio_fileT,
                runPrimary, if_neg hsr, if_neg hn, if_neg hd,
                apply_ite ValidationResult.duration]
              simpa using not_lt.mp hd
            | readFailed ch m =>
              refine ⟨?_, Or.inl ⟨n, sr, rfl, hsr, hn⟩⟩
              simp only [validate_audio_file, validate_audio_fileT,
                runPrimary, if_neg hsr, if_neg hn, if_neg hd,
                apply_ite ValidationResult.duration]
              simpa using not_lt.mp hd
            | probed ch k =>
              rcases k with _ | k
              · simp only [validate_audio_file, validate_audio_fileT,
                  runPrimary, if_neg hsr, if_neg hn, if_neg hd] at h
                simp [apply_ite ValidationResult.is_valid, initResult] at h
              · refine ⟨?_, Or.inl ⟨n, sr, rfl, hsr, hn⟩⟩
                simp only [validate_audio_file, validate_audio_fileT,
                  runPrimary, if_neg hsr, if_neg hn, if_neg hd,
                  apply_ite ValidationResult.duration]
                simpa using not_lt.mp hd

/-- C5 witness: the implication applied at a concrete valid input. -/
theorem c5_valid_witness :
    1 ≤ (validate_audio_file ⟨.staged, .decoded 120 1, .probed 2 1024,
        .failed "unused"⟩ "a.wav").duration ∧
    ((∃ n sr, (Env.mk .staged (.decoded 120 1) (.probed 2 1024)
        (.failed "unused")).primary = .decoded n sr ∧ sr ≠ 0 ∧ n ≠ 0) ∨
      (∃ f r c, (Env.mk .staged (.decoded 120 1) (.probed 2 1024)
        (.failed "unused")).fallback = .parsed f r c ∧ r ≠ 0)) :=
  c5_valid_requires_decode_and_floor _ "a.wav"
    (by norm_num [validate_audio_file, validate_audio_fileT, runPrimary,
      initResult])

/-- C6: once the primary decode and the duration checks have succeeded, a
probe failure (at open or at the test read) is recorded only as a warning,
leaves `errors` empty and the result valid; a probe whose test read yields
zero frames instead records an error and forces the result invalid. -/
theorem c6_probe_escalation (env : Env) (name : String) (n sr : Nat)
    (hs : env.stage = .staged) (hp : env.primary = .decoded n sr)
    (hsr : sr ≠ 0) (hn : n ≠ 0) (h1 : 1 ≤ (n : ℚ) / (sr : ℚ)) :
    (∀ m, env.probe = .openFailed m →
      (validate_audio_file env name).is_valid = true ∧
      probeWarnMsg m ∈ (validate_audio_file env name).warnings ∧
      (validate_audio_file env name).errors = []) ∧
    (∀ ch m, env.probe = .readFailed ch m →
      (validate_audio_file env name).is_valid = true ∧
      probeWarnMsg m ∈ (validate_audio_file env name).warnings ∧
      (validate_audio_file env name).errors = []) ∧
    (∀ ch, env.probe = .probed ch 0 →
      (validate_audio_file env name).is_valid = false ∧
      framesMsg ∈ (validate_audio_file env name).errors) := by
  obtain ⟨st, pr, pb, fb⟩ := env
  subst hs
  simp only at hp
  subst hp
  refine ⟨?_, ?_, ?_⟩
  · rintro m rfl
    simp only [validate_audio_file, validate_audio_fileT, runPrimary,
      if_neg hsr, if_neg hn, if_neg (not_lt.mpr h1)]
    refine ⟨by trivial, by simp [List.mem_append], ?_⟩
    simp [apply_ite ValidationResult.errors, initResult]
  · rintro ch m rfl
    simp only [validate_audio_file, validate_audio_fileT, runPrimary,
      if_neg hsr, if_neg hn, if_neg (not_lt.mpr h1)]
    refine ⟨by trivial, by simp [List.mem_append], ?_⟩
    simp [apply_ite ValidationResult.errors, initResult]
  · rintro ch rfl
    simp only [validate_audio_file, validate_audio_fileT, runPrimary,
      if_neg hsr, if_neg hn, if_neg (not_lt.mpr h1)]
    constructor
    · simp [apply_ite ValidationResult.is_valid, initResult]
    · simp [List.mem_append]

/-- C6 witness: the probe policy applied at a concrete input whose probe
open fails. -/
theorem c6_probe_witness :
    (validate_audio_file ⟨.staged, .decoded 30 1,
        .openFailed "unsupported container", .failed "unused"⟩
      "a.wav").is_valid = true ∧
    probeWarnMsg "unsupported container" ∈
      (validate_audio_file ⟨.staged, .decoded 30 1,
          .openFailed "unsupported container", .failed "unused"⟩
        "a.wav").warnings ∧
    (validate_audio_file ⟨.staged, .decoded 30 1,
        .openFailed "unsupported container", .failed "unused"⟩
      "a.wav").errors = [] :=
  (c6_probe_escalation _ "a.wav" 30 1 rfl rfl (by decide) (by decide)
      (by norm_num)).1 "unsupported container" rfl

/-- The message interpolated into the primary-failure error entry: the
library message, or `str(ZeroDivisionError)` when the reported sample rate
is zero. -/
def primaryFailMsg : DecodeOutcome → String
  | .failed m => m
  | .decoded _ _ => divZeroMsg

/-- The advisory duration warning is never the fallback-success warning:
the two strings differ already in their first character. -/
lemma advisoryMsg_ne_fallbackOkMsg (d : ℚ) : advisoryMsg d ≠ fallbackOkMsg := by
  intro h
  have h2 := congrArg (fun t => t.data.head?) h
  simp [advisoryMsg, fallbackOkMsg, String.data_append] at h2

/-- C1 counterexample: a file rescued by the fallback WAV reader with
duration 30 s (inside the advisory band 1 s ≤ d < 60 s) is marked valid but
receives no advisory warning naming the actual and recommended durations —
its only warning is the fallback-success note.  The two-tier policy is
therefore not applied uniformly across decode paths. -/
theorem c1_counterexample :
    (validate_audio_file envC1 "a.wav").duration = 30 ∧
    (1 : ℚ) ≤ 30 ∧ (30 : ℚ) < 60 ∧
    (validate_audio_file envC1 "a.wav").is_valid = true ∧
    (validate_audio_file envC1 "a.wav").warnings = [fallbackOkMsg] ∧
    (∀ d : ℚ, advisoryMsg d ∉ (validate_audio_file envC1 "a.wav").warnings) := by
  have hw : (validate_audio_file envC1 "a.wav").warnings = [fallbackOkMsg] := by
    norm_num [validate_audio_file, validate_audio_fileT, runPrimary,
      runFallback, envC1, initResult]
  refine ⟨?_, by norm_num, by norm_num, ?_, hw, ?_⟩
  · norm_num [validate_audio_file, validate_audio_fileT, runPrimary,
      runFallback, envC1, initResult]
  · norm_num [validate_audio_file, validate_audio_fileT, runPrimary,
      runFallback, envC1, initResult]
  · intro d hd
    rw [hw] at hd
    simp only [List.mem_singleton] at hd
    exact advisoryMsg_ne_fallbackOkMsg d hd

/-- C1 amended: the two-tier duration policy is applied only on the primary
decode path: there, a duration < 1 s appends the hard-floor error and
leaves the result invalid, and a duration in [1 s, 60 s) appends the
advisory warning naming the actual and recommended durations, the result
then being valid exactly when the probe does not read zero frames.  On the
fallback path only the 1 s hard floor is enforced: duration ≥ 1 s yields a
valid result whose only error is the retained primary-failure entry and
whose only warning is the fallback-success note (no advisory warning);
duration < 1 s leaves the result invalid with no duration error appended
and no warnings at all. -/
theorem c1_duration_policy_per_path (env : Env) (name : String) :
    (∀ n sr, env.stage = .staged → env.primary = .decoded n sr → sr ≠ 0 →
      n ≠ 0 →
      (((n : ℚ) / (sr : ℚ) < 1 →
        (validate_audio_file env name).is_valid = false ∧
        shortMsg ∈ (validate_audio_file env name).errors) ∧
      (1 ≤ (n : ℚ) / (sr : ℚ) → (n : ℚ) / (sr : ℚ) < 60 →
        advisoryMsg ((n : ℚ) / (sr : ℚ)) ∈
          (validate_audio_file env name).warnings ∧
        (validate_audio_file env name).is_valid =
          ! probeZeroRead env.probe))) ∧
    (∀ f r c, env.stage = .staged → primaryRaises env.primary = true →
      env.fallback = .parsed f r c → r ≠ 0 →
      ((1 ≤ (f : ℚ) / (r : ℚ) →
        (validate_audio_file env name).is_valid = true ∧
        (validate_audio_file env name).errors =
          [loadFailMsg (primaryFailMsg env.primary)] ∧
        (validate_audio_file env name).warnings = [fallbackOkMsg]) ∧
      ((f : ℚ) / (r : ℚ) < 1 →
        (validate_audio_file env name).is_valid = false ∧
        (validate_audio_file env name).errors =
          [loadFailMsg (primaryFailMsg env.primary)] ∧
        (validate_audio_file env name).warnings = []))) := by
  obtain ⟨st, pr, pb, fb⟩ := env
  constructor
  · rintro n sr rfl hp hsr hn
    simp only at hp
    subst hp
    constructor
    · intro hd
      simp [validate_audio_file, validate_audio_fileT, runPrimary,
        if_neg hsr, if_neg hn, if_pos hd, initResult]
    · intro h1 h60
      cases pb with
      | openFailed m =>
        simp [validate_audio_file, validate_audio_fileT, runPrimary,
          if_neg hsr, if_neg hn, if_neg (not_lt.mpr h1), if_pos h60,
          probeZeroRead, initResult, List.mem_append]
      | readFailed ch m =>
        simp [validate_audio_file, validate_audio_fileT, runPrimary,
          if_neg hsr, if_neg hn, if_neg (not_lt.mpr h1), if_pos h60,
          probeZeroRead, initResult, List.mem_append]
      | probed ch k =>
        rcases k with _ | k
        · simp [validate_audio_file, validate_audio_fileT, runPrimary,
            if_neg hsr, if_neg hn, if_neg (not_lt.mpr h1), if_pos h60,
            probeZeroRead, initResult, List.mem_append]
        · simp [validate_audio_file, validate_audio_fileT, runPrimary,
            if_neg hsr, if_neg hn, if_neg (not_lt.mpr h1), if_pos h60,
            probeZeroRead, initResult, List.mem_append]
  · rintro f r c rfl hpr hfb hr
    subst hfb
    cases pr with
    | failed m =>
      constructor
      · intro h1
        simp [validate_audio_file, validate_audio_fileT, runPrimary,
          runFallback, if_neg hr, if_pos h1, primaryFailMsg, initResult]
      · intro hd
        simp [validate_audio_file, validate_audio_fileT, runPrimary,
          runFallback, if_neg hr, if_neg (not_le.mpr hd), primaryFailMsg,
          initResult]
    | decoded n sr =>
      simp only [primaryRaises, beq_iff_eq] at hpr
      subst hpr
      constructor
      · intro h1
        simp [validate_audio_file, validate_audio_fileT, runPrimary,
          runFallback, if_neg hr, if_pos h1, primaryFailMsg, initResult]
      · intro hd
        simp [validate_audio_file, validate_audio_fileT, runPrimary,
          runFallback, if_neg hr, if_neg (not_le.mpr hd), primaryFailMsg,
          initResult]

/-- C1 witness: the primary-path advisory band evaluated at a concrete
30 s input whose probe open fails. -/
theorem c1_policy_witness :
    advisoryMsg (((30 : ℕ) : ℚ) / ((1 : ℕ) : ℚ)) ∈
      (validate_audio_file ⟨.staged, .decoded 30 1, .openFailed "probe failed",
          .failed "unused"⟩ "a.wav").warnings ∧
    (validate_audio_file ⟨.staged, .decoded 30 1, .openFailed "probe failed",
        .failed "unused"⟩ "a.wav").is_valid =
      ! probeZeroRead (.openFailed "probe failed") :=
  ((c1_duration_policy_per_path
      ⟨.staged, .decoded 30 1, .openFailed "probe failed", .failed "unused"⟩
      "a.wav").1 30 1 rfl rfl (by decide) (by decide)).2
    (by norm_num) (by norm_num)

/-- C8 counterexample: a file uploaded as `song.mp3` that only the fallback
WAV reader can decode validates successfully, yet its `format` field is the
hard-coded `".wav"`, not the lower-cased declared extension `".mp3"`. -/
theorem c8_counterexample :
    (validate_audio_file envC8 "song.mp3").is_valid = true ∧
    pyExtLower "song.mp3" = ".mp3" ∧
    (validate_audio_file envC8 "song.mp3").format = ".wav" ∧
    (validate_audio_file envC8 "song.mp3").format ≠ pyExtLower "song.mp3" := by
  have hf : (validate_audio_file envC8 "song.mp3").format = ".wav" := by
    norm_num [validate_audio_file, validate_audio_fileT, runPrimary,
      runFallback, envC8, initResult]
  refine ⟨?_, by decide, hf, ?_⟩
  · norm_num [validate_audio_file, validate_audio_fileT, runPrimary,
      runFallback, envC8, initResult]
  · rw [hf]
    decide

/-- C8 amended: whenever the primary decode returns a waveform, the
`format` field is the uploader-declared extension lower-cased (no content
sniffing); but whenever validation proceeds through the fallback WAV
reader, `format` is hard-coded to `".wav"` regardless of the declared
extension. -/
theorem c8_format_per_path (env : Env) (name : String) :
    (∀ n sr, env.stage = .staged → env.primary = .decoded n sr → sr ≠ 0 →
      (validate_audio_file env name).format = pyExtLower name) ∧
    (∀ f r c, env.stage = .staged → primaryRaises env.primary = true →
      env.fallback = .parsed f r c → r ≠ 0 →
      (validate_audio_file env name).format = ".wav") := by
  obtain ⟨st, pr, pb, fb⟩ := env
  constructor
  · rintro n sr rfl hp hsr
    simp only at hp
    subst hp
    by_cases hn : n = 0
    · simp [validate_audio_file, validate_audio_fileT, runPrimary,
        if_neg hsr, hn, initResult]
    · by_cases hd : (n : ℚ) / (sr : ℚ) < 1
      · simp [validate_audio_file, validate_audio_fileT, runPrimary,
          if_neg hsr, if_neg hn, if_pos hd, initResult]
      · cases pb with
        | openFailed m =>
          simp [validate_audio_file, validate_audio_fileT, runPrimary,
            if_neg hsr, if_neg hn, if_neg hd,
            apply_ite ValidationResult.format, initResult]
        | readFailed ch m =>
          simp [validate_audio_file, validate_audio_fileT, runPrimary,
            if_neg hsr, if_neg hn, if_neg hd,
            apply_ite ValidationResult.format, initResult]
        | probed ch k =>
          rcases k with _ | k
          · simp [validate_audio_file, validate_audio_fileT, runPrimary,
              if_neg hsr, if_neg hn, if_neg hd,
              apply_ite ValidationResult.format, initResult]
          · simp [validate_audio_file, validate_audio_fileT, runPrimary,
              if_neg hsr, if_neg hn, if_neg hd,
              apply_ite ValidationResult.format, initResult]
  · rintro f r c rfl hpr hfb hr
    subst hfb
    cases pr with
    | failed m =>
      simp only [validate_audio_file, validate_audio_fileT, runPrimary,
        runFallback]
      split_ifs with h0 h1
      · exact absurd h0 hr
      · simp [initResult]
      · simp [initResult]
    | decoded n sr =>
      simp only [primaryRaises, beq_iff_eq] at hpr
      subst hpr
      by_cases h1 : 1 ≤ (f : ℚ) / (r : ℚ)
      · simp [validate_audio_file, validate_audio_fileT, runPrimary,
          runFallback, if_neg hr, if_pos h1, initResult]
      · simp [validate_audio_file, validate_audio_fileT, runPrimary,
          runFallback, if_neg hr, if_neg h1, initResult]

/-- C8 witness: the primary-path format rule evaluated at a concrete input
named `A.WAV`. -/
theorem c8_format_witness :
    (validate_audio_file ⟨.staged, .decoded 120 1, .probed 2 4,
        .failed "unused"⟩ "A.WAV").format = pyExtLower "A.WAV" :=
  (c8_format_per_path ⟨.staged, .decoded 120 1, .probed 2 4, .failed "unused"⟩
    "A.WAV").1 120 1 rfl rfl (by decide)

/-- C2 witness: the amended behaviour evaluated at a concrete input. -/
theorem c2_zero_samples_witness :
    (validate_audio_fileT envC2 "a.wav").1.is_valid = false ∧
    (validate_audio_fileT envC2 "a.wav").1.errors = [zeroDataMsg] ∧
    (validate_audio_fileT envC2 "a.wav").2.fallbackAttempted = false ∧
    (validate_audio_fileT envC2 "a.wav").2.probeAttempted = false :=
  c2_zero_samples_no_fallback envC2 "a.wav" 0 44100 rfl rfl (by decide) rfl
